import Mathlib

/-!
Verification development for the instant-meshes-mcp mesh-processing server
(`src/server.py`).  The Python source is shallowly embedded: pure fragments
become Lean functions, stateful fragments become explicit state passing, and
every external effect (pymeshlab calls, the filesystem, wall-clock time,
process spawning) is an explicit oracle/environment parameter.  Exceptions
raised by library calls that the source wraps in `try/except` are modelled by
`Option`/`Except` results of the corresponding oracle.

Floating-point threshold comparisons in the source (`* 1.1`, `* 0.95`,
`* 1.05`, `* 0.6`, `* 0.5`, `* 0.8`, `< 0.5`, `< 0.3`) are modelled by the
exact rational comparisons they denote, written with integer arithmetic
(e.g. `current_faces > target_faces * 1.1` becomes
`11 * target < 10 * current`); for the face-count magnitudes this program
works with, IEEE double rounding never changes the outcome of these
comparisons, so the exact model agrees with the Python code.
-/

/-! ## Mesh quality analysis: `check_mesh_quality` (server.py:2572-2632)

`trimesh.load` and the derived geometric quantities are abstracted into
`MeshData`; a failed load is the `Except.error` case of the argument.
Floating-point measurements only feed threshold tests, so they are carried
as the Booleans of those tests. -/

structure MeshData where
  vertices : Nat
  faces : Nat
  edges : Nat
  watertight : Bool
  /-- Python `mesh.area < 0.001` -/
  verySmallArea : Bool
  /-- number of connected components returned by `mesh.split`, `none` if `split` raised -/
  components : Option Nat
  /-- Python `min_edge / max_edge < 0.001` (with `max_edge > 0`), `none` if the probe raised -/
  extremeEdgeVariation : Option Bool
deriving Repr, DecidableEq

/-- The structured part of the dict built by `check_mesh_quality` on a
successful load (only the keys the pipeline later reads). -/
structure QualityReport where
  vertices : Nat
  faces : Nat
  edges : Nat
  watertight : Bool
  issues : List String
  warnings : List String
deriving Repr, DecidableEq

/-- The function `check_mesh_quality` returns a dict in all cases: a quality dict on a
successful load, and `{"error": str(e)}` when `trimesh.load` (or anything
after it) raises -- the `try/except` at server.py:2580/2631 catches
everything. -/
inductive QualityResult where
  | report (q : QualityReport)
  | error (msg : String)
deriving Repr, DecidableEq

def check_mesh_quality (load : Except String MeshData) : QualityResult :=
  match load with
  | Except.error e => QualityResult.error e
  | Except.ok m =>
    let issues :=
      (if m.watertight = false then ["Not watertight (has holes)"] else []) ++
      (if m.faces = 0 then ["No faces"] else []) ++
      (if m.vertices = 0 then ["No vertices"] else [])
    let warnings :=
      (match m.components with
       | some n => if 1 < n then ["Model has separate components"] else []
       | none => []) ++
      (if m.verySmallArea then ["Very small surface area - model might be damaged"] else []) ++
      (match m.extremeEdgeVariation with
       | some true => ["Extreme edge length variation - model might have artifacts"]
       | _ => [])
    QualityResult.report
      { vertices := m.vertices, faces := m.faces, edges := m.edges,
        watertight := m.watertight, issues := issues, warnings := warnings }

/-- Python `original_quality.get("faces", 0)` (server.py:3073). -/
def qGetFaces : QualityResult → Nat
  | QualityResult.report q => q.faces
  | QualityResult.error _ => 0

/-- Python `original_quality.get("watertight", False)` (server.py:3082). -/
def qGetWatertight : QualityResult → Bool
  | QualityResult.report q => q.watertight
  | QualityResult.error _ => false

/-- Python `original_quality.get("issues", [])` (server.py:3083/3092). -/
def qGetIssues : QualityResult → List String
  | QualityResult.report q => q.issues
  | QualityResult.error _ => []

/-! ## Operation selection inside `process_model` (server.py:3079-3137) -/

/-- Step 3 of `process_model`: the `actual_operation` variable. -/
def actual_operation (operation : String) (q : QualityResult) : String :=
  if operation = "auto" then
    if qGetWatertight q = true ∧ ¬ 0 < (qGetIssues q).length then "simplify"
    else "remesh"
  else operation

inductive PipePath where
  | noOp
  | simplifyPath
  | remeshPath
deriving Repr, DecidableEq

/-- Steps 4-5 of `process_model`: which processing branch runs
(server.py:3096-3137).  `if original_faces <= target_faces` short-circuits
to no processing; otherwise `actual_operation == "simplify"` selects the
decimation branch and anything else the Instant Meshes remesh branch. -/
def pipelinePath (operation : String) (q : QualityResult) (targetFaces : Nat) : PipePath :=
  if qGetFaces q ≤ targetFaces then PipePath.noOp
  else if actual_operation operation q = "simplify" then PipePath.simplifyPath
  else PipePath.remeshPath

/-- The `final_obj` variable of `process_model`: `obj_in` on the no-op
branch, the simplified mesh or the Instant Meshes output otherwise
(server.py:3100, 3108, 3137). -/
def process_model_final_obj (operation : String) (q : QualityResult) (targetFaces : Nat)
    (objIn simplifiedObj remeshedObj : String) : String :=
  if qGetFaces q ≤ targetFaces then objIn
  else if actual_operation operation q = "simplify" then simplifiedObj
  else remeshedObj

/-- Outcome of the analysis-and-selection prefix of `process_model`
(steps 2-4).  The source has no fatal exit in this region:
`check_mesh_quality` catches every exception internally and the selection
code only reads the dict with defaults, so `fatal` is never produced --
the constructor exists to state what the spec claims. -/
inductive AnalysisOutcome where
  | fatal (msg : String)
  | proceeded (path : PipePath) (finalObjIsInput : Bool)
deriving Repr, DecidableEq

def pipelineAnalyzeAndSelect (operation : String) (load : Except String MeshData)
    (targetFaces : Nat) : AnalysisOutcome :=
  let q := check_mesh_quality load
  AnalysisOutcome.proceeded (pipelinePath operation q targetFaces)
    (decide (qGetFaces q ≤ targetFaces))

/-- Claim C5 as stated: a mesh that cannot be parsed makes the
quality-analysis step fail with a fatal, propagated load error. -/
def claimC5Prop : Prop :=
  ∀ (e : String) (operation : String) (targetFaces : Nat),
    ∃ msg, pipelineAnalyzeAndSelect operation (Except.error e) targetFaces =
      AnalysisOutcome.fatal msg

/-! ## `run_instant_meshes` command construction (server.py:2209-2261) -/

/-- Basename of the Instant Meshes executable; the directory prefix
(`os.path.dirname(os.path.abspath(__file__))`) is abstracted away. -/
def INSTANT_MESHES_PATH : String := "Instant Meshes.exe"

/-- Python `str(k)`/`str(v)` flattening of `extra_options` (server.py:2255-2261):
booleans append the key alone when true, other values append key and value. -/
inductive ExtraOptVal where
  | boolVal (b : Bool)
  | strVal (s : String)
deriving Repr, DecidableEq

def extraOptionArgs : List (String × ExtraOptVal) → List String
  | [] => []
  | (k, ExtraOptVal.boolVal b) :: rest =>
    (if b then [k] else []) ++ extraOptionArgs rest
  | (k, ExtraOptVal.strVal v) :: rest => [k, v] ++ extraOptionArgs rest

/-- The argument list handed to `subprocess.Popen`.  In `coarse` mode the
source reassigns `target_faces = int(target_faces * 0.8)` before building
the command; `int(t * 0.8)` equals `4 * t / 5` in exact arithmetic. -/
def run_instant_meshes_cmd (objIn objOut : String) (targetFaces : Nat)
    (extraOptions : List (String × ExtraOptVal)) (mode : String) : List String :=
  (if mode = "fine" then
    [INSTANT_MESHES_PATH, "-i", objIn, "-o", objOut,
     "--faces", toString targetFaces, "-d", "-b", "-c"]
  else if mode = "coarse" then
    let targetFaces := 4 * targetFaces / 5
    [INSTANT_MESHES_PATH, "-i", objIn, "-o", objOut,
     "--faces", toString targetFaces, "-d"]
  else if mode = "fix_holes" then
    [INSTANT_MESHES_PATH, "-i", objIn, "-o", objOut,
     "--faces", toString targetFaces, "-d", "-b", "-s", "2"]
  else
    [INSTANT_MESHES_PATH, "-i", objIn, "-o", objOut,
     "--faces", toString targetFaces, "-d", "-b"]) ++ extraOptionArgs extraOptions

/-- The value following `"--faces"` in an argument list. -/
def facesArgOf : List String → Option String
  | [] => none
  | [_] => none
  | a :: b :: rest => if a = "--faces" then some b else facesArgOf (b :: rest)

/-! ## `progressive_simplify` (server.py:2308-2451)

The pymeshlab `MeshSet` is abstracted into the face counts the loop reads
back after each operation; the collapse calls become oracle functions, with
`none` standing for a raised exception (each call site wraps the collapse in
`try/except`).  The three preprocessing cleanups before step 1
(server.py:2361-2367) change the mesh but the loop never reads a face count
between them and the first collapse, so they are absorbed into the oracle. -/

structure DecimOracle where
  /-- wall-clock seconds elapsed when the iteration for step `s` begins
  (`time.time() - start_time`, server.py:2350) -/
  elapsed : Nat → Nat
  /-- The call `meshing_decimation_quadric_edge_collapse` inside the loop
  (server.py:2371-2382, `autoclean=False`):
  (step index, current faces, `targetfacenum`) ↦ face count read back after
  the call, `none` when the call raises -/
  stepCollapse : Nat → Nat → Nat → Option Nat
  /-- the final precise collapse after the loop (server.py:2416-2426,
  `autoclean=True`): (current faces, `target_faces`) ↦ face count, `none`
  when it raises -/
  finalCollapse : Nat → Nat → Option Nat
  /-- the single-pass collapse of the moderate branch (server.py:2433-2443) -/
  oneShot : Nat → Nat → Option Nat

/-- Why the progressive loop stopped.  The numbering in the spec:
1 timeout, 2 step cap, 3 insufficient reduction, 4 abnormal face count,
5 close to target; `targetReached` is the `while` condition
`current_faces > target_faces * 1.1` turning false, `stepFailed` the
`except` branch at server.py:2383-2387. -/
inductive ExitReason where
  | targetReached
  | stepCap
  | timeoutReached
  | stepFailed
  | insufficientReduction
  | abnormalFaces
  | closeToTarget
deriving Repr, DecidableEq

structure LoopOut where
  /-- Value of `current_faces` when the loop exits -/
  faces : Nat
  reason : ExitReason
  /-- Pairs `(prev_faces, current_faces)` for every collapse that completed -/
  steps : List (Nat × Nat)
deriving Repr, DecidableEq

/-- The `while` loop of `progressive_simplify` (server.py:2348-2411).
`c` is `current_faces`, `s` is `step` (starting at 1), and the fuel is
`max_steps + 1 - step`, so the `while` guard `step <= max_steps` is the
fuel reaching 0.  Exact-arithmetic renderings of the float comparisons:
`c > target * 1.1` is `11 * target < 10 * c`;
`c2 >= prev * 0.95` is `19 * prev ≤ 20 * c2`;
`c2 <= target * 1.05` is `20 * c2 ≤ 21 * target`;
`int(c * 0.6)` is `3 * c / 5`. -/
def progLoopAux (o : DecimOracle) (target : Nat) : Nat → Nat → Nat → LoopOut
  | c, _, 0 =>
    ⟨c, if 11 * target < 10 * c then ExitReason.stepCap else ExitReason.targetReached, []⟩
  | c, s, fuel + 1 =>
    if ¬ 11 * target < 10 * c then ⟨c, ExitReason.targetReached, []⟩
    else if 300 < o.elapsed s then ⟨c, ExitReason.timeoutReached, []⟩
    else
      match o.stepCollapse s c (max target (3 * c / 5)) with
      | none => ⟨c, ExitReason.stepFailed, []⟩
      | some c2 =>
        if 19 * c ≤ 20 * c2 then ⟨c2, ExitReason.insufficientReduction, [(c, c2)]⟩
        else if c2 = 0 then ⟨c2, ExitReason.abnormalFaces, [(c, c2)]⟩
        else if 20 * c2 ≤ 21 * target then ⟨c2, ExitReason.closeToTarget, [(c, c2)]⟩
        else
          let r := progLoopAux o target c2 (s + 1) fuel
          ⟨r.faces, r.reason, (c, c2) :: r.steps⟩

inductive ProgPath where
  | unchanged
  | aggressive (lp : LoopOut) (finalAttempted : Bool)
  | moderate (ok : Bool)
deriving Repr, DecidableEq

structure ProgRun where
  path : ProgPath
  /-- face count of the mesh `progressive_simplify` hands back (the saved
  mesh, or the untouched input when it returns `input_path`) -/
  resultFaces : Nat
deriving Repr, DecidableEq

/-- Model of `progressive_simplify` (server.py:2308-2451).  Here `reduction_ratio < 0.5`
is `2 * targetFaces < originalFaces`.  After the progressive loop the final
precise collapse is guarded only by `current_faces > target_faces`
(server.py:2414); a raise there keeps the result of the loop, a raise on the
moderate one-shot branch returns the input unchanged (server.py:2444-2446). -/
def progressive_simplify (o : DecimOracle) (originalFaces targetFaces : Nat) : ProgRun :=
  if originalFaces ≤ targetFaces then ⟨ProgPath.unchanged, originalFaces⟩
  else if 2 * targetFaces < originalFaces then
    let lp := progLoopAux o targetFaces originalFaces 1 10
    if targetFaces < lp.faces then
      match o.finalCollapse lp.faces targetFaces with
      | some cf => ⟨ProgPath.aggressive lp true, cf⟩
      | none => ⟨ProgPath.aggressive lp true, lp.faces⟩
    else ⟨ProgPath.aggressive lp false, lp.faces⟩
  else
    match o.oneShot originalFaces targetFaces with
    | some cf => ⟨ProgPath.moderate true, cf⟩
    | none => ⟨ProgPath.moderate false, originalFaces⟩

/-- The loop outcome and whether the final precise collapse ran, on the
aggressive branch. -/
def progAggInfo (o : DecimOracle) (orig target : Nat) : Option (LoopOut × Bool) :=
  match progressive_simplify o orig target with
  | ⟨ProgPath.aggressive lp fa, _⟩ => some (lp, fa)
  | _ => none

/-- Claim C2 as stated (the part it entails about the code): when the loop
stops for insufficient reduction, (a) at least two steps ran (two
consecutive stalling steps must exist) and (b) the returned state is the
one from before the stalling step, i.e. the `faces_before` of the last
recorded step. -/
def claimC2Prop : Prop :=
  ∀ (o : DecimOracle) (orig target : Nat),
    (progLoopAux o target orig 1 10).reason = ExitReason.insufficientReduction →
      2 ≤ (progLoopAux o target orig 1 10).steps.length ∧
      (progLoopAux o target orig 1 10).faces =
        ((progLoopAux o target orig 1 10).steps.getLastD (0, 0)).1

/-- Claim C3 as stated: the final precise collapse is attempted iff the loop
exited for timeout, the step cap, or closeness to target, and the face
count is still above target -- in particular never after an
insufficient-reduction or abnormal-face-count exit. -/
def claimC3Prop : Prop :=
  ∀ (o : DecimOracle) (orig target : Nat) (lp : LoopOut) (fa : Bool),
    progAggInfo o orig target = some (lp, fa) →
    (fa = true ↔
      ((lp.reason = ExitReason.timeoutReached ∨ lp.reason = ExitReason.stepCap ∨
        lp.reason = ExitReason.closeToTarget) ∧ target < lp.faces))

/-- Oracle whose first collapse stalls far above the target: every in-loop
collapse returns 990 faces, the final precise collapse raises. -/
def stallOracle : DecimOracle :=
  { elapsed := fun _ => 0
    stepCollapse := fun _ _ _ => some 990
    finalCollapse := fun _ _ => none
    oneShot := fun _ _ => none }

/-! ## The Blender wait loop of `glb_to_obj_with_textures` (server.py:1222-1253)

The filesystem as observed by the polling loop is an environment indexed by
`waited_time` (the tick counter, one tick per second): what
`os.path.exists`/`os.path.getsize` return at the top of tick `t`, and what
they return when re-checked two seconds into tick `t` (the
`time.sleep(2)` re-check at server.py:1244-1245). -/

structure BlenderWaitEnv where
  /-- Result of `os.path.exists(done_flag_path)` at tick `t` -/
  doneFlagExists : Nat → Bool
  /-- Result of `os.path.exists(obj_path)` at tick `t` -/
  objExists : Nat → Bool
  /-- Result of `os.path.getsize(obj_path)` at tick `t` -/
  objGetSize : Nat → Nat
  /-- Result of `os.path.exists(obj_path)` at the 2s re-check of tick `t` -/
  objExistsRecheck : Nat → Bool
  /-- Result of `os.path.getsize(obj_path)` at the 2s re-check of tick `t` -/
  objGetSizeRecheck : Nat → Nat

/-- Python `obj_size = os.path.getsize(obj_path) if obj_exists else 0` (server.py:1226). -/
def objSizeAt (e : BlenderWaitEnv) (t : Nat) : Nat :=
  if e.objExists t = true then e.objGetSize t else 0

/-- Python `new_obj_size = os.path.getsize(obj_path) if os.path.exists(obj_path) else 0`
(server.py:1245). -/
def objSizeRecheckAt (e : BlenderWaitEnv) (t : Nat) : Nat :=
  if e.objExistsRecheck t = true then e.objGetSizeRecheck t else 0

/-- The `while waited_time < max_wait_time` loop (server.py:1222-1253),
returning the final value of `blender_completed`.  `t` is `waited_time`,
the fuel is `max_wait_time - waited_time`.  The first branch
(server.py:1234) declares success with no further check; the `elif`
(server.py:1242-1250) requires no flag file but only fires after 30 ticks
and re-checks the size after two more seconds. -/
def blenderWaitFrom (e : BlenderWaitEnv) : Nat → Nat → Bool
  | _, 0 => false
  | t, fuel + 1 =>
    if e.doneFlagExists t = true ∧ e.objExists t = true ∧ 0 < objSizeAt e t then true
    else if e.objExists t = true ∧ 0 < objSizeAt e t ∧ 30 < t then
      if objSizeRecheckAt e t = objSizeAt e t ∧ 0 < objSizeAt e t then true
      else blenderWaitFrom e (t + 1) fuel
    else blenderWaitFrom e (t + 1) fuel

/-- The wait for this conversion job: `max_wait_time = 180`, `waited_time`
starts at 0 (server.py:1209-1211). -/
def blenderCompleted (e : BlenderWaitEnv) : Bool :=
  blenderWaitFrom e 0 180

/-- Claim C1 as stated: the wait loop declares completion iff, at some tick
within the bound, the completion flag file exists, the output file exists
with positive size, and its size is unchanged when re-checked after the
extra ≈2s interval. -/
def claimC1Prop : Prop :=
  ∀ (e : BlenderWaitEnv),
    blenderCompleted e = true ↔
    ∃ t, t < 180 ∧ e.doneFlagExists t = true ∧ 0 < objSizeAt e t ∧
      objSizeRecheckAt e t = objSizeAt e t

/-- Environment refuting C1: the flag file and a non-empty output exist
from the start, but the output file is still growing (every 2s re-check
would see a different size).  The code still declares success at tick 0,
through the flag branch, which never re-checks the size. -/
def growingOutputEnv : BlenderWaitEnv :=
  { doneFlagExists := fun _ => true
    objExists := fun _ => true
    objGetSize := fun _ => 1
    objExistsRecheck := fun _ => true
    objGetSizeRecheck := fun _ => 2 }

/-! ## `simplify_with_uv_preservation` (server.py:2071-2186)

Each pymeshlab call is wrapped in `try/except` in the source; success or
failure of each call is an environment Boolean, so the Lean model is total:
the function always returns a value, exactly as the Python function never
propagates an exception. -/

structure UVEnv where
  /-- whether `ms.load_new_mesh` succeeds (server.py:2082-2086) -/
  loadOk : Bool
  /-- Value of `ms.current_mesh().face_number()` after loading -/
  faces : Nat
  /-- whether the `has_face_tex_coord/has_vert_tex_coord` probe raises
  (server.py:2094-2097; a raise forces `has_texcoords = False`) -/
  texProbeRaises : Bool
  hasTexCoords : Bool
  /-- whether the first-phase collapse succeeds (server.py:2108-2120) -/
  phase1Ok : Bool
  /-- whether the conservative fallback collapse after a first-phase
  failure succeeds (server.py:2123-2135) -/
  fallbackOk : Bool
  /-- whether the second-phase collapse succeeds (server.py:2141-2153) -/
  phase2Ok : Bool
  /-- whether the moderate-branch one-shot collapse succeeds (server.py:2159-2171) -/
  oneShotOk : Bool
  /-- whether `ms.save_current_mesh` succeeds (server.py:2180-2184) -/
  saveOk : Bool

/-- Which parameter set a quadric-edge-collapse call used. -/
inductive CollapseKind where
  /-- two-phase step 1: `boundaryweight=3.0`, `autoclean=False` -/
  | phaseOne
  /-- two-phase step 2: `boundaryweight=3.0`, `autoclean=True` -/
  | phaseTwo
  /-- fallback after step-1 failure: `preservetopology=False`, `boundaryweight=2.0` -/
  | fallbackPass
  /-- moderate branch single collapse: `boundaryweight=2.0` -/
  | oneShotPass
deriving Repr, DecidableEq

inductive UVResult where
  /-- the function returned `input_path` (load/collapse/save failure, or no-op) -/
  | inputPath
  /-- the function saved and returned `*_uv_simplified.obj` -/
  | savedPath
  /-- the function delegated to `progressive_simplify` (no texture coordinates) -/
  | progressiveResult
deriving Repr, DecidableEq

structure UVRun where
  result : UVResult
  /-- the `meshing_decimation_quadric_edge_collapse` calls this function
  itself attempted, in order, with their `targetfacenum` arguments -/
  attempts : List (CollapseKind × Nat)
  /-- whether the generic `progressive_simplify` loop was invoked -/
  usedProgressive : Bool
deriving Repr, DecidableEq

/-- Model of `simplify_with_uv_preservation` (server.py:2071-2186).
`reduction_ratio < 0.3` is rendered exactly as
`10 * targetFaces < 3 * originalFaces`, and
`int(original_faces * 0.5)` as `faces / 2`. -/
def simplify_with_uv_preservation (env : UVEnv) (targetFaces : Nat) : UVRun :=
  if env.loadOk = false then ⟨UVResult.inputPath, [], false⟩
  else if env.faces ≤ targetFaces then ⟨UVResult.inputPath, [], false⟩
  else
    let hasTexcoords := if env.texProbeRaises = true then false else env.hasTexCoords
    if hasTexcoords = true then
      if 10 * targetFaces < 3 * env.faces then
        let intermediate := env.faces / 2
        if env.phase1Ok = true then
          -- the `else:` of the first `try` runs phase 2; a raise there is
          -- swallowed (`pass`) and the current result is saved anyway
          if env.phase2Ok = true then
            ⟨if env.saveOk = true then UVResult.savedPath else UVResult.inputPath,
             [(CollapseKind.phaseOne, intermediate), (CollapseKind.phaseTwo, targetFaces)], false⟩
          else
            ⟨if env.saveOk = true then UVResult.savedPath else UVResult.inputPath,
             [(CollapseKind.phaseOne, intermediate), (CollapseKind.phaseTwo, targetFaces)], false⟩
        else
          if env.fallbackOk = true then
            ⟨if env.saveOk = true then UVResult.savedPath else UVResult.inputPath,
             [(CollapseKind.phaseOne, intermediate), (CollapseKind.fallbackPass, targetFaces)], false⟩
          else
            ⟨UVResult.inputPath,
             [(CollapseKind.phaseOne, intermediate), (CollapseKind.fallbackPass, targetFaces)], false⟩
      else
        if env.oneShotOk = true then
          ⟨if env.saveOk = true then UVResult.savedPath else UVResult.inputPath,
           [(CollapseKind.oneShotPass, targetFaces)], false⟩
        else ⟨UVResult.inputPath, [(CollapseKind.oneShotPass, targetFaces)], false⟩
    else
      ⟨UVResult.progressiveResult, [], true⟩

/-! ## `restore_obj_material` (server.py:2473-2570)

Text lines are modelled as lists of characters.  The texture-copying
section (server.py:2517-2547) swallows every exception and does not touch
the new OBJ file, so it is not modelled; the mtllib rewrite at
server.py:2549-2570 is modelled in full. -/

/-- Python `str.startswith`: the first argument is the pattern. -/
def pyStartsWith : List Char → List Char → Bool
  | [], _ => true
  | _ :: _, [] => false
  | p :: ps, c :: cs => p == c && pyStartsWith ps cs

/-- Python check `line.lower().startswith` with the mtllib pattern
(server.py:2490/2557/2921). -/
def isMtllibLine (l : List Char) : Bool :=
  pyStartsWith "mtllib".toList (l.map Char.toLower)

/-- The mtllib directive line written by the rewrite (server.py:2559); the
trailing newline of the Python f-string is not part of the modelled line. -/
def mkMtllibLine (m : List Char) : List Char :=
  "mtllib ".toList ++ m

/-- Python `str.split()` with no separator: split on whitespace runs,
dropping empty chunks.  `acc` holds the current chunk reversed. -/
def splitWsAux : List Char → List Char → List (List Char)
  | [], acc => if acc = [] then [] else [acc.reverse]
  | c :: cs, acc =>
    if c.isWhitespace then
      if acc = [] then splitWsAux cs [] else acc.reverse :: splitWsAux cs []
    else splitWsAux cs (c :: acc)

def pySplitWs (l : List Char) : List (List Char) :=
  splitWsAux l []

/-- Python `sep`-split keeping empty chunks, used for `split('/')`. -/
def splitSlashAux : List Char → List Char → List (List Char)
  | [], acc => [acc.reverse]
  | c :: cs, acc =>
    if c = '/' then acc.reverse :: splitSlashAux cs []
    else splitSlashAux cs (c :: acc)

/-- Python `tok.replace('\\', '/').split('/')[-1]` (server.py:2496). -/
def pyBasename (tok : List Char) : List Char :=
  (splitSlashAux (tok.map (fun c => if c = '\\' then '/' else c)) []).getLastD []

/-- The rewrite loop of server.py:2554-2562: walk the lines of the new OBJ with
the `mtl_written` flag `w`; the first mtllib line is replaced by
`mtllib {mtl_file}`, later mtllib lines are dropped, everything else is
kept.  Returns the new line list and the final flag. -/
def rewriteMtllibAux (m : List Char) : Bool → List (List Char) → List (List Char) × Bool
  | w, [] => ([], w)
  | w, l :: ls =>
    if isMtllibLine l = true then
      let r := rewriteMtllibAux m true ls
      if w = true then r else (mkMtllibLine m :: r.1, r.2)
    else
      let r := rewriteMtllibAux m w ls
      (l :: r.1, r.2)

/-- The full mtllib rewrite (server.py:2554-2565): run the loop with
`mtl_written = False`; if no mtllib line was seen, insert one at
position 0. -/
def fixObjMtllib (m : List Char) (objLines : List (List Char)) : List (List Char) :=
  let r := rewriteMtllibAux m false objLines
  if r.2 = true then r.1 else mkMtllibLine m :: r.1

/-- The filesystem and file contents `restore_obj_material` observes. -/
structure MaterialEnv where
  /-- whether `os.path.exists(original_obj_path)` (server.py:2478) -/
  originalExists : Bool
  /-- lines of the original OBJ; `none` when reading raises (server.py:2484-2488) -/
  originalLines : Option (List (List Char))
  /-- whether the resolved material file exists in `TEMP_DIR` (server.py:2503) -/
  tempHasMtl : Bool
  /-- whether the resolved material file exists beside the original OBJ (server.py:2505) -/
  origHasMtl : Bool
  /-- whether `safe_copy(mtl_source_path, new_dir)` succeeds (server.py:2512-2515) -/
  copyOk : Bool
  /-- lines of the new OBJ; `none` when reading raises (server.py:2550-2552,
  the surrounding `try` then skips the rewrite) -/
  newObjLines : Option (List (List Char))

inductive RestoreResult where
  /-- the function returned without touching the new OBJ -/
  | unchanged
  /-- Python `line.split()[1]` raised `IndexError` on a short mtllib line
  (server.py:2490 is outside any `try`) -/
  | indexOutOfRange
  /-- the new OBJ was rewritten with these lines -/
  | rewritten (newLines : List (List Char))
deriving Repr, DecidableEq

/-- The list comprehension at server.py:2490: `line.split()[1]` for every
mtllib line; the first line with fewer than two tokens raises `IndexError`
(`none`). -/
def mtllibTokens : List (List Char) → Option (List (List Char))
  | [] => some []
  | l :: ls =>
    match (pySplitWs l)[1]? with
    | none => none
    | some t =>
      match mtllibTokens ls with
      | none => none
      | some ts => some (t :: ts)

def restore_obj_material (env : MaterialEnv) : RestoreResult :=
  if env.originalExists = false then RestoreResult.unchanged
  else
    match env.originalLines with
    | none => RestoreResult.unchanged
    | some origLines =>
      match mtllibTokens (origLines.filter (fun l => isMtllibLine l)) with
      | none => RestoreResult.indexOutOfRange
      | some mtlToks =>
        match mtlToks with
        | [] => RestoreResult.unchanged
        | tok :: _ =>
          let mtlFile := pyBasename tok
          if env.tempHasMtl = false ∧ env.origHasMtl = false then RestoreResult.unchanged
          else if env.copyOk = false then RestoreResult.unchanged
          else
            match env.newObjLines with
            | none => RestoreResult.unchanged
            | some objLines => RestoreResult.rewritten (fixObjMtllib mtlFile objLines)

/-! ## Cleanup discipline of `process_model`
(server.py:2864-2882, 2976-2978, 3227-3243, 3253-3270)

The filesystem is the list of existing file paths; removals are modelled as
succeeding (every `os.remove`/`shutil.rmtree` in the cleanup code is wrapped
in `try/except ... continue`, so a failing removal only leaves the file
behind -- the ideal-filesystem model is the behaviour the claim is about).
The whole `try` body of `process_model` (input handling through archiving)
is one environment function returning the filesystem at exit, the
`temp_files` list recorded so far, and either the produced value or the
raised exception. -/

structure PMEnv where
  /-- whether a path lies in the shared `TEMP_DIR` -/
  isTemp : String → Bool
  /-- the `try` body (server.py:3010-3252): filesystem in, then
  (filesystem at exit, `temp_files` recorded at exit, outcome) -/
  body : List String → List String × List String × Except String String

/-- Effect of `os.remove(f)` (guarded by `os.path.exists`). -/
def removeFile (existing : List String) (f : String) : List String :=
  existing.filter (fun g => !(g == f))

/-- Model of `clean_temp_directory` (server.py:2864-2882): every entry of `TEMP_DIR`
is deleted. -/
def clean_temp_directory (isTemp : String → Bool) (existing : List String) : List String :=
  existing.filter (fun f => !isTemp f)

/-- The `for f in temp_files: os.remove(f)` loops (server.py:3232-3240 and
3260-3265). -/
def removeRecordedFiles (recorded existing : List String) : List String :=
  recorded.foldl removeFile existing

/-- Outer structure of `process_model` (server.py:2976-2977, 3010, 3232-3243,
3253-3270): clean the temp directory up front, run the body, and on *both*
the success and the exception path remove every recorded temp file and empty
the temp directory before returning or re-raising. -/
def process_model (env : PMEnv) (existing0 : List String) :
    List String × Except String String :=
  let existing1 := clean_temp_directory env.isTemp existing0
  match env.body existing1 with
  | (existingAtExit, recorded, Except.ok v) =>
    (clean_temp_directory env.isTemp (removeRecordedFiles recorded existingAtExit),
     Except.ok v)
  | (existingAtExit, recorded, Except.error e) =>
    (clean_temp_directory env.isTemp (removeRecordedFiles recorded existingAtExit),
     Except.error e)

/-- The `temp_files` list as it stands when the body exits. -/
def bodyRecorded (env : PMEnv) (existing0 : List String) : List String :=
  (env.body (clean_temp_directory env.isTemp existing0)).2.1

/-! ## Theorems -/

/-- C4: with `operation = "auto"` and the analyzed face count above the
target, `process_model` takes the simplify branch exactly when the quality
report is watertight and its issues list is empty; otherwise it takes the
remesh branch (server.py:3080-3094, 3096-3137). -/
theorem C4_auto_selects_simplify_iff (q : QualityReport) (targetFaces : Nat)
    (h : targetFaces < q.faces) :
    pipelinePath "auto" (QualityResult.report q) targetFaces = PipePath.simplifyPath ↔
      (q.watertight = true ∧ q.issues = []) := by
  have hnle : ¬ q.faces ≤ targetFaces := Nat.not_le.mpr h
  by_cases hw : q.watertight = true
  · by_cases hi : q.issues = []
    · simp [pipelinePath, actual_operation, qGetFaces, qGetWatertight, qGetIssues,
        hw, hi, hnle]
    · have hlen : 0 < q.issues.length := List.length_pos.mpr hi
      simp [pipelinePath, actual_operation, qGetFaces, qGetWatertight, qGetIssues,
        hw, hi, hnle, hlen]
  · simp [pipelinePath, actual_operation, qGetFaces, qGetWatertight, qGetIssues,
      hw, hnle]

theorem C4_auto_selects_simplify_iff_witness :
    pipelinePath "auto"
      (QualityResult.report
        { vertices := 8, faces := 12, edges := 18, watertight := true,
          issues := [], warnings := [] }) 5 = PipePath.simplifyPath :=
  (C4_auto_selects_simplify_iff
    { vertices := 8, faces := 12, edges := 18, watertight := true,
      issues := [], warnings := [] } 5 (by decide)).mpr ⟨rfl, rfl⟩

/-- C5 counterexample: the claim that an unparseable mesh makes the
analysis step fail fatally is false -- `check_mesh_quality` catches the
load exception and returns `{"error": ...}` (server.py:2631-2632), and
`process_model` then proceeds: it reads `faces = 0` from the dict and
takes the no-op branch. -/
theorem C5_counterexample : ¬ claimC5Prop := by
  intro h
  obtain ⟨msg, hmsg⟩ := h "load failed" "auto" 5000
  simp [pipelineAnalyzeAndSelect, check_mesh_quality, pipelinePath, qGetFaces] at hmsg

/-- C5 amended: when the mesh loader fails, `check_mesh_quality` returns an
error dict instead of raising; `process_model` reads a face count of `0`
from it, which is `≤ target_faces`, so the pipeline continues on the no-op
branch with the unchanged input mesh -- no load error is propagated by the
analysis step. -/
theorem C5_load_error_not_propagated (e operation : String) (targetFaces : Nat) :
    pipelineAnalyzeAndSelect operation (Except.error e) targetFaces =
      AnalysisOutcome.proceeded PipePath.noOp true := by
  simp [pipelineAnalyzeAndSelect, check_mesh_quality, pipelinePath, qGetFaces]

/-- C6: whenever the analyzed face count is at most `target_faces`,
`process_model` performs neither decimation nor remesh: the no-op branch is
taken and `final_obj` is the input mesh itself (server.py:3096-3100). -/
theorem C6_no_op_keeps_input (operation : String) (q : QualityResult) (targetFaces : Nat)
    (h : qGetFaces q ≤ targetFaces) :
    pipelinePath operation q targetFaces = PipePath.noOp ∧
    ∀ objIn simplifiedObj remeshedObj,
      process_model_final_obj operation q targetFaces objIn simplifiedObj remeshedObj =
        objIn := by
  constructor
  · unfold pipelinePath
    rw [if_pos h]
  · intro objIn s r
    unfold process_model_final_obj
    rw [if_pos h]

theorem C6_no_op_keeps_input_witness :
    pipelinePath "remesh"
      (QualityResult.report
        { vertices := 4, faces := 4, edges := 6, watertight := true,
          issues := [], warnings := [] }) 100 = PipePath.noOp ∧
    process_model_final_obj "remesh"
      (QualityResult.report
        { vertices := 4, faces := 4, edges := 6, watertight := true,
          issues := [], warnings := [] }) 100 "in.obj" "s.obj" "r.obj" = "in.obj" := by
  have h := C6_no_op_keeps_input "remesh"
    (QualityResult.report
      { vertices := 4, faces := 4, edges := 6, watertight := true,
        issues := [], warnings := [] }) 100 (by decide)
  exact ⟨h.1, h.2 "in.obj" "s.obj" "r.obj"⟩

/-- C10: in `coarse` mode the `--faces` argument passed to Instant Meshes is
`int(target_faces * 0.8)` (modelled exactly as `4 * t / 5`), while the
`fine`, `fix_holes` and `balanced` modes pass the caller-supplied `target_faces`
unchanged (server.py:2213-2253). -/
theorem C10_coarse_reduces_faces_arg (objIn objOut : String) (targetFaces : Nat)
    (extraOptions : List (String × ExtraOptVal)) (mode : String)
    (hmode : mode = "coarse" ∨ mode = "fine" ∨ mode = "fix_holes" ∨ mode = "balanced")
    (hin : objIn ≠ "--faces") (hout : objOut ≠ "--faces") :
    facesArgOf (run_instant_meshes_cmd objIn objOut targetFaces extraOptions mode) =
      some (toString (if mode = "coarse" then 4 * targetFaces / 5 else targetFaces)) := by
  rcases hmode with h | h | h | h <;>
    simp [h, run_instant_meshes_cmd, facesArgOf, INSTANT_MESHES_PATH, hin, hout]

theorem C10_coarse_reduces_faces_arg_witness :
    facesArgOf (run_instant_meshes_cmd "a.obj" "b.obj" 1000 [] "coarse") =
      some (toString 800) ∧
    facesArgOf (run_instant_meshes_cmd "a.obj" "b.obj" 1000 [] "balanced") =
      some (toString 1000) := by
  constructor
  · have h := C10_coarse_reduces_faces_arg "a.obj" "b.obj" 1000 [] "coarse" (Or.inl rfl)
      (by decide) (by decide)
    simpa using h
  · have h := C10_coarse_reduces_faces_arg "a.obj" "b.obj" 1000 [] "balanced"
      (Or.inr (Or.inr (Or.inr rfl))) (by decide) (by decide)
    simpa using h

/-- Helper: an abnormal-face-count exit happens exactly when the step left
`current_faces = 0`, so the face count returned by the loop is 0 in that case. -/
theorem progLoopAux_abnormal_faces (o : DecimOracle) (target : Nat) :
    ∀ (fuel c s : Nat),
      (progLoopAux o target c s fuel).reason = ExitReason.abnormalFaces →
      (progLoopAux o target c s fuel).faces = 0 := by
  intro fuel
  induction fuel with
  | zero =>
    intro c s h
    simp only [progLoopAux] at h
    split at h <;> simp_all
  | succ n ih =>
    intro c s
    simp only [progLoopAux]
    split
    · intro h; simp_all
    · split
      · intro h; simp_all
      · split
        · intro h; simp_all
        · split
          · intro h; simp_all
          · next hc2 =>
            split
            · intro h; simp_all
            · split
              · intro h; simp_all
              · exact ih _ _

/-- Helper: when the loop exits for insufficient reduction, the recorded
step trace ends with the (single) stalling step, every earlier step made
progress, and the returned face count is the one *after* the stalling
step. -/
theorem progLoopAux_stall_shape (o : DecimOracle) (target : Nat) :
    ∀ (fuel c s : Nat),
      (progLoopAux o target c s fuel).reason = ExitReason.insufficientReduction →
      ∃ pre post rest,
        (progLoopAux o target c s fuel).steps = rest ++ [(pre, post)] ∧
        19 * pre ≤ 20 * post ∧
        (∀ p ∈ rest, ¬ 19 * p.1 ≤ 20 * p.2) ∧
        (progLoopAux o target c s fuel).faces = post := by
  intro fuel
  induction fuel with
  | zero =>
    intro c s h
    simp only [progLoopAux] at h
    split at h <;> simp_all
  | succ n ih =>
    intro c s
    simp only [progLoopAux]
    split
    · intro h; simp_all
    · split
      · intro h; simp_all
      · split
        · intro h; simp_all
        · next c2 heq =>
          split
          · next hstall =>
            intro _
            exact ⟨c, c2, [], by simp, hstall, by simp, rfl⟩
          · next hnostall =>
            split
            · intro h; simp_all
            · split
              · intro h; simp_all
              · intro h
                obtain ⟨pre, post, rest, h1, h2, h3, h4⟩ := ih c2 (s + 1) h
                refine ⟨pre, post, (c, c2) :: rest, ?_, h2, ?_, h4⟩
                · simpa using congrArg (List.cons (c, c2)) h1
                · intro p hp
                  rcases List.mem_cons.mp hp with hp | hp
                  · subst hp; exact hnostall
                  · exact h3 p hp

/-- C2 counterexample: with `stallOracle`, original 1000 faces and target
100, the very first step stalls (1000 → 990 is not below 95% of 1000); the
loop terminates after this single stall -- not after two consecutive ones --
and the returned state is the post-stall 990 faces, not the pre-stall
1000. -/
theorem C2_counterexample : ¬ claimC2Prop := by
  intro h
  have h2 := h stallOracle 1000 100 (by decide)
  exact absurd h2.1 (by decide)

/-- C2 amended: one step failing to drop the face count below 95% of its
previous value already terminates the loop (so two consecutive stalling
steps can never occur), and the changes of the stalled step are kept: the loop
returns the face count from *after* the stalling step. -/
theorem C2_single_stall_terminates (o : DecimOracle) (orig target : Nat)
    (h : (progLoopAux o target orig 1 10).reason = ExitReason.insufficientReduction) :
    ∃ pre post rest,
      (progLoopAux o target orig 1 10).steps = rest ++ [(pre, post)] ∧
      19 * pre ≤ 20 * post ∧
      (∀ p ∈ rest, ¬ 19 * p.1 ≤ 20 * p.2) ∧
      (progLoopAux o target orig 1 10).faces = post :=
  progLoopAux_stall_shape o target 10 orig 1 h

theorem C2_single_stall_terminates_witness :
    (progLoopAux stallOracle 100 1000 1 10).reason = ExitReason.insufficientReduction ∧
    ∃ pre post rest,
      (progLoopAux stallOracle 100 1000 1 10).steps = rest ++ [(pre, post)] ∧
      19 * pre ≤ 20 * post ∧
      (∀ p ∈ rest, ¬ 19 * p.1 ≤ 20 * p.2) ∧
      (progLoopAux stallOracle 100 1000 1 10).faces = post :=
  ⟨by decide, C2_single_stall_terminates stallOracle 1000 100 (by decide)⟩

/-- C3 counterexample: with `stallOracle`, original 1000 faces and target
100, the loop exits for insufficient reduction (reason 3) with 990 faces
still above target, and the final precise collapse *is* attempted
(server.py:2414 guards it only by `current_faces > target_faces`). -/
theorem C3_counterexample : ¬ claimC3Prop := by
  intro h
  have h2 := h stallOracle 1000 100
    ⟨990, ExitReason.insufficientReduction, [(1000, 990)]⟩ true (by decide)
  rcases (h2.mp rfl).1 with h3 | h3 | h3 <;> exact absurd h3 (by decide)

/-- C3 amended: after the aggressive-branch loop exits, the final precise
collapse to `target_face_count` is attempted iff the face count is still
above target, regardless of the exit reason (insufficient reduction and
step failure included); an abnormal-face-count exit leaves 0 faces, so for
any positive target it never leads to the final collapse. -/
theorem C3_final_collapse_iff_above_target (o : DecimOracle) (orig target : Nat)
    (lp : LoopOut) (fa : Bool)
    (h : progAggInfo o orig target = some (lp, fa)) :
    (fa = true ↔ target < lp.faces) ∧
    (lp.reason = ExitReason.abnormalFaces → lp.faces = 0) ∧
    (lp.reason = ExitReason.abnormalFaces → 0 < target → fa = false) := by
  unfold progAggInfo progressive_simplify at h
  by_cases h1 : orig ≤ target
  · rw [if_pos h1] at h
    simp at h
  · rw [if_neg h1] at h
    by_cases h2 : 2 * target < orig
    · rw [if_pos h2] at h
      by_cases h3 : target < (progLoopAux o target orig 1 10).faces
      · rw [if_pos h3] at h
        cases hfc : o.finalCollapse (progLoopAux o target orig 1 10).faces target with
        | some cf =>
          rw [hfc] at h
          simp at h
          obtain ⟨hlp, hfa⟩ := h
          subst hlp
          refine ⟨by simp [hfa, h3], fun hab => progLoopAux_abnormal_faces o target 10 orig 1 hab, ?_⟩
          intro hab hpos
          have h0 := progLoopAux_abnormal_faces o target 10 orig 1 hab
          omega
        | none =>
          rw [hfc] at h
          simp at h
          obtain ⟨hlp, hfa⟩ := h
          subst hlp
          refine ⟨by simp [hfa, h3], fun hab => progLoopAux_abnormal_faces o target 10 orig 1 hab, ?_⟩
          intro hab hpos
          have h0 := progLoopAux_abnormal_faces o target 10 orig 1 hab
          omega
      · rw [if_neg h3] at h
        simp at h
        obtain ⟨hlp, hfa⟩ := h
        subst hlp
        refine ⟨by simp [← hfa, h3], fun hab => progLoopAux_abnormal_faces o target 10 orig 1 hab, ?_⟩
        intro _ _
        exact hfa
    · rw [if_neg h2] at h
      cases ho : o.oneShot orig target with
      | some cf => rw [ho] at h; simp at h
      | none => rw [ho] at h; simp at h

theorem C3_final_collapse_iff_above_target_witness :
    ((true = true) ↔
      (100 < (⟨990, ExitReason.insufficientReduction, [(1000, 990)]⟩ : LoopOut).faces)) ∧
    ((⟨990, ExitReason.insufficientReduction, [(1000, 990)]⟩ : LoopOut).reason =
        ExitReason.abnormalFaces →
      (⟨990, ExitReason.insufficientReduction, [(1000, 990)]⟩ : LoopOut).faces = 0) ∧
    ((⟨990, ExitReason.insufficientReduction, [(1000, 990)]⟩ : LoopOut).reason =
        ExitReason.abnormalFaces → 0 < 100 → true = false) :=
  C3_final_collapse_iff_above_target stallOracle 1000 100
    ⟨990, ExitReason.insufficientReduction, [(1000, 990)]⟩ true (by decide)

/-- Helper: a positive observed size implies the existence check passed. -/
theorem objExists_of_pos_size (e : BlenderWaitEnv) (t : Nat) (h : 0 < objSizeAt e t) :
    e.objExists t = true := by
  unfold objSizeAt at h
  by_cases hx : e.objExists t = true
  · exact hx
  · rw [if_neg hx] at h
    omega

/-- Helper: the wait loop succeeds iff some tick in the fuel window satisfies
either the flag branch or the stability branch. -/
theorem blenderWaitFrom_eq_true_iff (e : BlenderWaitEnv) :
    ∀ (fuel t : Nat),
      blenderWaitFrom e t fuel = true ↔
      ∃ k, k < fuel ∧
        ((e.doneFlagExists (t + k) = true ∧ 0 < objSizeAt e (t + k)) ∨
         (0 < objSizeAt e (t + k) ∧ 30 < t + k ∧
          objSizeRecheckAt e (t + k) = objSizeAt e (t + k))) := by
  intro fuel
  induction fuel with
  | zero =>
    intro t
    simp [blenderWaitFrom]
  | succ n ih =>
    intro t
    constructor
    · intro h
      rw [blenderWaitFrom] at h
      by_cases hA : e.doneFlagExists t = true ∧ e.objExists t = true ∧ 0 < objSizeAt e t
      · exact ⟨0, by omega, Or.inl ⟨by simpa using hA.1, by simpa using hA.2.2⟩⟩
      · rw [if_neg hA] at h
        by_cases hB : e.objExists t = true ∧ 0 < objSizeAt e t ∧ 30 < t
        · rw [if_pos hB] at h
          by_cases hS : objSizeRecheckAt e t = objSizeAt e t ∧ 0 < objSizeAt e t
          · exact ⟨0, by omega, Or.inr ⟨by simpa using hB.2.1, by simpa using hB.2.2, by simpa using hS.1⟩⟩
          · rw [if_neg hS] at h
            obtain ⟨k, hk, hcond⟩ := (ih (t + 1)).mp h
            exact ⟨k + 1, by omega, by rw [show t + (k + 1) = t + 1 + k by omega]; exact hcond⟩
        · rw [if_neg hB] at h
          obtain ⟨k, hk, hcond⟩ := (ih (t + 1)).mp h
          exact ⟨k + 1, by omega, by rw [show t + (k + 1) = t + 1 + k by omega]; exact hcond⟩
    · rintro ⟨k, hk, hcond⟩
      rw [blenderWaitFrom]
      by_cases hA : e.doneFlagExists t = true ∧ e.objExists t = true ∧ 0 < objSizeAt e t
      · rw [if_pos hA]
      · rw [if_neg hA]
        by_cases hB : e.objExists t = true ∧ 0 < objSizeAt e t ∧ 30 < t
        · rw [if_pos hB]
          by_cases hS : objSizeRecheckAt e t = objSizeAt e t ∧ 0 < objSizeAt e t
          · rw [if_pos hS]
          · rw [if_neg hS]
            apply (ih (t + 1)).mpr
            cases k with
            | zero =>
              simp only [Nat.add_zero] at hcond
              rcases hcond with ⟨hd, hsz⟩ | ⟨hsz, _, hre⟩
              · exact absurd ⟨hd, objExists_of_pos_size e t hsz, hsz⟩ hA
              · exact absurd ⟨hre, hsz⟩ hS
            | succ k' =>
              exact ⟨k', by omega, by rw [show t + 1 + k' = t + (k' + 1) by omega]; exact hcond⟩
        · rw [if_neg hB]
          apply (ih (t + 1)).mpr
          cases k with
          | zero =>
            simp only [Nat.add_zero] at hcond
            rcases hcond with ⟨hd, hsz⟩ | ⟨hsz, h30, _⟩
            · exact absurd ⟨hd, objExists_of_pos_size e t hsz, hsz⟩ hA
            · exact absurd ⟨objExists_of_pos_size e t hsz, hsz, h30⟩ hB
          | succ k' =>
            exact ⟨k', by omega, by rw [show t + 1 + k' = t + (k' + 1) by omega]; exact hcond⟩

/-- C1 counterexample: on `growingOutputEnv` the loop declares success at
tick 0 through the flag branch without any size re-check, although the
output size is never stable across a re-check -- so success is *not*
equivalent to "flag ∧ nonempty output ∧ size unchanged on re-check". -/
theorem C1_counterexample : ¬ claimC1Prop := by
  intro h
  have h1 : blenderCompleted growingOutputEnv = true := rfl
  obtain ⟨t, -, -, -, hre⟩ := (h growingOutputEnv).mp h1
  simp [growingOutputEnv, objSizeAt, objSizeRecheckAt] at hre

/-- C1 amended: the wait loop declares completion iff at some tick before
the 180 s bound either (a) the flag file exists and the output file exists
with positive size -- with *no* stability re-check -- or (b) the output
file exists with positive size, more than 30 s have elapsed, and its size
is unchanged when re-checked ≈2 s later -- with *no* flag file required. -/
theorem C1_completion_iff (e : BlenderWaitEnv) :
    blenderCompleted e = true ↔
    ∃ t, t < 180 ∧
      ((e.doneFlagExists t = true ∧ 0 < objSizeAt e t) ∨
       (0 < objSizeAt e t ∧ 30 < t ∧ objSizeRecheckAt e t = objSizeAt e t)) := by
  unfold blenderCompleted
  rw [blenderWaitFrom_eq_true_iff e 180 0]
  constructor
  · rintro ⟨k, hk, hc⟩
    exact ⟨k, hk, by simpa using hc⟩
  · rintro ⟨t, ht, hc⟩
    exact ⟨t, ht, by simpa using hc⟩

/-- C7: for a mesh with texture coordinates on the UV-preserving path with
`reduction_ratio < 0.3`, the function always bypasses the generic
progressive loop, its first collapse always targets 50% of the original
face count, and when that first phase succeeds the decimation consists of
exactly two phases: the 50% intermediate collapse followed by one collapse
to the final target.  The model is total, mirroring that the Python
function catches every internal exception and returns its best result
instead of raising. -/
theorem C7_two_phase_for_aggressive_uv (env : UVEnv) (targetFaces : Nat)
    (hload : env.loadOk = true)
    (horder : targetFaces < env.faces)
    (hprobe : env.texProbeRaises = false)
    (htex : env.hasTexCoords = true)
    (hratio : 10 * targetFaces < 3 * env.faces) :
    (simplify_with_uv_preservation env targetFaces).usedProgressive = false ∧
    (simplify_with_uv_preservation env targetFaces).attempts.head? =
      some (CollapseKind.phaseOne, env.faces / 2) ∧
    (env.phase1Ok = true →
      (simplify_with_uv_preservation env targetFaces).attempts =
        [(CollapseKind.phaseOne, env.faces / 2), (CollapseKind.phaseTwo, targetFaces)]) := by
  have hnle : ¬ env.faces ≤ targetFaces := Nat.not_le.mpr horder
  unfold simplify_with_uv_preservation
  rw [hload]
  simp only [Bool.true_eq_false, if_false, if_neg hnle, hprobe, htex, if_pos hratio]
  by_cases h1 : env.phase1Ok = true
  · rw [if_pos h1]
    by_cases h2 : env.phase2Ok = true
    · rw [if_pos h2]
      by_cases hs : env.saveOk = true <;> simp [hs]
    · rw [if_neg h2]
      by_cases hs : env.saveOk = true <;> simp [hs]
  · rw [if_neg h1]
    by_cases hf : env.fallbackOk = true
    · rw [if_pos hf]
      by_cases hs : env.saveOk = true <;> simp [hs, h1]
    · rw [if_neg hf]
      simp [h1]

/-- Environment for the spec scenario: 100,000 faces, every internal call
succeeds. -/
def uvScenarioEnv : UVEnv :=
  { loadOk := true, faces := 100000, texProbeRaises := false, hasTexCoords := true,
    phase1Ok := true, fallbackOk := true, phase2Ok := true, oneShotOk := true,
    saveOk := true }

theorem C7_two_phase_for_aggressive_uv_witness :
    (simplify_with_uv_preservation uvScenarioEnv 5000).usedProgressive = false ∧
    (simplify_with_uv_preservation uvScenarioEnv 5000).attempts.head? =
      some (CollapseKind.phaseOne, 50000) ∧
    (simplify_with_uv_preservation uvScenarioEnv 5000).attempts =
      [(CollapseKind.phaseOne, 50000), (CollapseKind.phaseTwo, 5000)] := by
  have h := C7_two_phase_for_aggressive_uv uvScenarioEnv 5000 rfl (by decide) rfl rfl (by decide)
  exact ⟨h.1, h.2.1, h.2.2 rfl⟩

/-- Helper: `pyStartsWith p` accepts any extension of `p`. -/
theorem pyStartsWith_self_append (p rest : List Char) :
    pyStartsWith p (p ++ rest) = true := by
  induction p with
  | nil => rfl
  | cons c cs ih => simp [pyStartsWith, ih]

/-- Helper: the line written by the rewrite is itself recognized as a
mtllib line, for any material-file name. -/
theorem isMtllibLine_mkMtllibLine (m : List Char) :
    isMtllibLine (mkMtllibLine m) = true := by
  unfold isMtllibLine mkMtllibLine
  rw [List.map_append]
  have h1 : "mtllib ".toList.map Char.toLower = "mtllib".toList ++ [' '] := by decide
  rw [h1, List.append_assoc]
  exact pyStartsWith_self_append _ _

/-- Helper: once `mtl_written` is set, the loop just drops every further
mtllib line and keeps the rest. -/
theorem rewriteMtllibAux_true (m : List Char) (ls : List (List Char)) :
    rewriteMtllibAux m true ls = (ls.filter (fun l => !isMtllibLine l), true) := by
  induction ls with
  | nil => rfl
  | cons l ls ih =>
    by_cases h : isMtllibLine l = true
    · simp [rewriteMtllibAux, h, ih, List.filter_cons]
    · simp [rewriteMtllibAux, h, ih, List.filter_cons,
        Bool.eq_false_iff.mpr h]

/-- Helper: no line survives both a filter for and a filter against
`isMtllibLine`. -/
theorem filter_mtllib_of_filter_not (ls : List (List Char)) :
    (ls.filter (fun l => !isMtllibLine l)).filter (fun l => isMtllibLine l) = [] := by
  induction ls with
  | nil => rfl
  | cons l ls ih =>
    by_cases h : isMtllibLine l = true
    · simp [List.filter_cons, h, ih]
    · simp [List.filter_cons, h, ih, Bool.eq_false_iff.mpr h]

/-- Helper: on a list with no mtllib line the loop is the identity. -/
theorem rewriteMtllibAux_free (m : List Char) (w : Bool) (ls : List (List Char))
    (h : ∀ l ∈ ls, isMtllibLine l = false) :
    rewriteMtllibAux m w ls = (ls, w) := by
  induction ls with
  | nil => rfl
  | cons l ls ih =>
    have hl : isMtllibLine l = false := h l (by simp)
    have ih' := ih (fun x hx => h x (by simp [hx]))
    simp [rewriteMtllibAux, hl, ih']

/-- Helper: with `mtl_written = False`, the flag result of the loop is whether
the input had any mtllib line, and the mtllib lines of its output are
exactly one rewritten line when it had, none otherwise. -/
theorem rewriteMtllibAux_false_spec (m : List Char) (ls : List (List Char)) :
    (rewriteMtllibAux m false ls).2 = ls.any (fun l => isMtllibLine l) ∧
    (rewriteMtllibAux m false ls).1.filter (fun l => isMtllibLine l) =
      (if ls.any (fun l => isMtllibLine l) = true then [mkMtllibLine m] else []) := by
  induction ls with
  | nil => simp [rewriteMtllibAux]
  | cons l ls ih =>
    by_cases h : isMtllibLine l = true
    · constructor
      · simp [rewriteMtllibAux, h, rewriteMtllibAux_true]
      · simp [rewriteMtllibAux, h, rewriteMtllibAux_true, List.filter_cons,
          isMtllibLine_mkMtllibLine, filter_mtllib_of_filter_not]
    · have hfalse : isMtllibLine l = false := Bool.eq_false_iff.mpr h
      constructor
      · simp [rewriteMtllibAux, h, ih.1, hfalse]
      · simp [rewriteMtllibAux, h, List.filter_cons, hfalse, ih.2]

/-- Helper: every `fixObjMtllib` output contains exactly one mtllib line,
namely the rewritten one. -/
theorem fixObjMtllib_filter (m : List Char) (ls : List (List Char)) :
    (fixObjMtllib m ls).filter (fun l => isMtllibLine l) = [mkMtllibLine m] := by
  obtain ⟨hsnd, hfst⟩ := rewriteMtllibAux_false_spec m ls
  simp only [fixObjMtllib]
  by_cases hany : ls.any (fun l => isMtllibLine l) = true
  · rw [hsnd, hany, if_pos rfl]
    simpa [hany] using hfst
  · have hf : ls.any (fun l => isMtllibLine l) = false := Bool.eq_false_iff.mpr hany
    rw [hsnd, hf]
    simp only [Bool.false_eq_true, if_false, List.filter_cons, isMtllibLine_mkMtllibLine]
    simpa [hf] using hfst

/-- Helper: when the input has a mtllib line, the loop output decomposes as
mtllib-free lines around the single rewritten line. -/
theorem rewriteMtllibAux_false_shape (m : List Char) (ls : List (List Char))
    (h : ls.any (fun l => isMtllibLine l) = true) :
    ∃ pre suf, (rewriteMtllibAux m false ls).1 = pre ++ mkMtllibLine m :: suf ∧
      (∀ l ∈ pre, isMtllibLine l = false) ∧ (∀ l ∈ suf, isMtllibLine l = false) := by
  induction ls with
  | nil => simp at h
  | cons l ls ih =>
    by_cases hl : isMtllibLine l = true
    · refine ⟨[], ls.filter (fun x => !isMtllibLine x), ?_, by simp, ?_⟩
      · simp [rewriteMtllibAux, hl, rewriteMtllibAux_true]
      · intro x hx
        have := List.of_mem_filter hx
        simpa using this
    · have hfalse : isMtllibLine l = false := Bool.eq_false_iff.mpr hl
      have h' : ls.any (fun l => isMtllibLine l) = true := by
        simpa [hfalse] using h
      obtain ⟨pre, suf, h1, h2, h3⟩ := ih h'
      refine ⟨l :: pre, suf, ?_, ?_, h3⟩
      · simp [rewriteMtllibAux, hl, h1]
      · intro x hx
        rcases List.mem_cons.mp hx with hx | hx
        · subst hx; exact hfalse
        · exact h2 x hx

/-- Helper: the loop run on an already-rewritten list reproduces it, with
the flag set. -/
theorem rewriteMtllibAux_false_on_shape (m : List Char) (pre suf : List (List Char))
    (hpre : ∀ l ∈ pre, isMtllibLine l = false) (hsuf : ∀ l ∈ suf, isMtllibLine l = false) :
    rewriteMtllibAux m false (pre ++ mkMtllibLine m :: suf) =
      (pre ++ mkMtllibLine m :: suf, true) := by
  induction pre with
  | nil =>
    simp [rewriteMtllibAux, isMtllibLine_mkMtllibLine,
      rewriteMtllibAux_free m true suf hsuf]
  | cons p pre ih =>
    have hp : isMtllibLine p = false := hpre p (by simp)
    have ih' := ih (fun l hl => hpre l (by simp [hl]))
    simp [rewriteMtllibAux, hp, ih']

/-- Helper: the rewrite is idempotent. -/
theorem fixObjMtllib_idem (m : List Char) (ls : List (List Char)) :
    fixObjMtllib m (fixObjMtllib m ls) = fixObjMtllib m ls := by
  have hshape : ∃ pre suf, fixObjMtllib m ls = pre ++ mkMtllibLine m :: suf ∧
      (∀ l ∈ pre, isMtllibLine l = false) ∧ (∀ l ∈ suf, isMtllibLine l = false) := by
    by_cases hany : ls.any (fun l => isMtllibLine l) = true
    · obtain ⟨pre, suf, h1, h2, h3⟩ := rewriteMtllibAux_false_shape m ls hany
      refine ⟨pre, suf, ?_, h2, h3⟩
      simp only [fixObjMtllib]
      rw [(rewriteMtllibAux_false_spec m ls).1, hany, if_pos rfl]
      exact h1
    · have hf : ls.any (fun l => isMtllibLine l) = false := Bool.eq_false_iff.mpr hany
      have hfree : ∀ l ∈ ls, isMtllibLine l = false := by
        intro l hl
        by_contra hc
        have : isMtllibLine l = true := by
          cases hval : isMtllibLine l
          · exact absurd hval hc
          · rfl
        exact absurd ((List.any_eq_true).mpr ⟨l, hl, this⟩) (by rw [hf]; simp)
      refine ⟨[], ls, ?_, by simp, hfree⟩
      simp only [fixObjMtllib]
      rw [rewriteMtllibAux_free m false ls hfree]
      simp
  obtain ⟨pre, suf, h1, h2, h3⟩ := hshape
  rw [h1]
  simp only [fixObjMtllib]
  rw [rewriteMtllibAux_false_on_shape m pre suf h2 h3]
  simp

/-- C8: when the reference OBJ resolves to a material file, the relink
rewrites the new OBJ (input with 0, 1, or 3 mtllib lines alike) so that
exactly one mtllib line remains afterward, referencing the resolved
material file, and reapplying the rewrite changes nothing. -/
theorem C8_relink_single_mtllib (env : MaterialEnv)
    (origLines objLines : List (List Char)) (tok : List Char) (toks : List (List Char))
    (hex : env.originalExists = true)
    (horig : env.originalLines = some origLines)
    (htoks : mtllibTokens (origLines.filter (fun l => isMtllibLine l)) =
      some (tok :: toks))
    (hres : env.tempHasMtl = true ∨ env.origHasMtl = true)
    (hcopy : env.copyOk = true)
    (hnew : env.newObjLines = some objLines)
    (_hcount : (objLines.filter (fun l => isMtllibLine l)).length = 0 ∨
              (objLines.filter (fun l => isMtllibLine l)).length = 1 ∨
              (objLines.filter (fun l => isMtllibLine l)).length = 3) :
    restore_obj_material env =
      RestoreResult.rewritten (fixObjMtllib (pyBasename tok) objLines) ∧
    (fixObjMtllib (pyBasename tok) objLines).filter (fun l => isMtllibLine l) =
      [mkMtllibLine (pyBasename tok)] ∧
    fixObjMtllib (pyBasename tok) (fixObjMtllib (pyBasename tok) objLines) =
      fixObjMtllib (pyBasename tok) objLines := by
  refine ⟨?_, fixObjMtllib_filter _ _, fixObjMtllib_idem _ _⟩
  have hnotboth : ¬ (env.tempHasMtl = false ∧ env.origHasMtl = false) := by
    rcases hres with h | h <;> simp [h]
  simp [restore_obj_material, hex, horig, htoks, hnew, hcopy, hnotboth]

/-- Concrete reference OBJ resolving to `scene.mtl` and a new OBJ carrying
three mtllib lines. -/
def materialEnv3 : MaterialEnv :=
  { originalExists := true
    originalLines := some ["mtllib scene.mtl".toList, "v 0 0 0".toList]
    tempHasMtl := true
    origHasMtl := false
    copyOk := true
    newObjLines := some
      ["mtllib a.mtl".toList, "v 0 0 0".toList, "mtllib b.mtl".toList,
       "f 1 2 3".toList, "mtllib c.mtl".toList] }

theorem C8_relink_single_mtllib_witness :
    restore_obj_material materialEnv3 =
      RestoreResult.rewritten
        (fixObjMtllib (pyBasename "scene.mtl".toList)
          ["mtllib a.mtl".toList, "v 0 0 0".toList, "mtllib b.mtl".toList,
           "f 1 2 3".toList, "mtllib c.mtl".toList]) ∧
    (fixObjMtllib (pyBasename "scene.mtl".toList)
        ["mtllib a.mtl".toList, "v 0 0 0".toList, "mtllib b.mtl".toList,
         "f 1 2 3".toList, "mtllib c.mtl".toList]).filter (fun l => isMtllibLine l) =
      [mkMtllibLine (pyBasename "scene.mtl".toList)] ∧
    fixObjMtllib (pyBasename "scene.mtl".toList)
        (fixObjMtllib (pyBasename "scene.mtl".toList)
          ["mtllib a.mtl".toList, "v 0 0 0".toList, "mtllib b.mtl".toList,
           "f 1 2 3".toList, "mtllib c.mtl".toList]) =
      fixObjMtllib (pyBasename "scene.mtl".toList)
        ["mtllib a.mtl".toList, "v 0 0 0".toList, "mtllib b.mtl".toList,
         "f 1 2 3".toList, "mtllib c.mtl".toList] :=
  C8_relink_single_mtllib materialEnv3
    ["mtllib scene.mtl".toList, "v 0 0 0".toList]
    ["mtllib a.mtl".toList, "v 0 0 0".toList, "mtllib b.mtl".toList,
     "f 1 2 3".toList, "mtllib c.mtl".toList]
    "scene.mtl".toList [] rfl rfl (by decide) (Or.inl rfl) rfl rfl
    (Or.inr (Or.inr (by decide)))

/-- Helper: removing a file removes it. -/
theorem not_mem_removeFile_self (existing : List String) (f : String) :
    f ∉ removeFile existing f := by
  intro h
  have := List.of_mem_filter h
  simp at this

/-- Helper: removal only shrinks the filesystem. -/
theorem removeFile_subset (existing : List String) (a f : String)
    (h : f ∈ removeFile existing a) : f ∈ existing :=
  List.mem_of_mem_filter h

/-- Helper: a file absent before a removal loop is absent after it. -/
theorem not_mem_foldl_removeFile (l : List String) :
    ∀ (existing : List String) (f : String), f ∉ existing →
      f ∉ l.foldl removeFile existing := by
  induction l with
  | nil => intro existing f h; exact h
  | cons a l ih =>
    intro existing f h
    apply ih
    intro hc
    exact h (removeFile_subset existing a f hc)

/-- Helper: the removal loop removes every recorded file. -/
theorem not_mem_removeRecordedFiles (recorded : List String) :
    ∀ (existing : List String) (f : String), f ∈ recorded →
      f ∉ removeRecordedFiles recorded existing := by
  induction recorded with
  | nil => intro existing f h; simp at h
  | cons r rs ih =>
    intro existing f h
    unfold removeRecordedFiles at *
    simp only [List.foldl_cons]
    rcases List.mem_cons.mp h with h | h
    · subst h
      exact not_mem_foldl_removeFile rs (removeFile existing f) f
        (not_mem_removeFile_self existing f)
    · exact ih (removeFile existing r) f h

/-- Helper: emptying the temp directory removes every temp-directory file. -/
theorem not_mem_clean_of_temp (isTemp : String → Bool) (existing : List String)
    (f : String) (h : isTemp f = true) :
    f ∉ clean_temp_directory isTemp existing := by
  intro hc
  have := List.of_mem_filter hc
  simp [h] at this

/-- C9: when the body of `process_model` raises, the exception path still
removes every recorded temporary file and empties the shared temp directory
before the exception propagates (server.py:3253-3270 mirrors the
success-path cleanup at 3227-3243). -/
theorem C9_cleanup_on_error (env : PMEnv) (existing0 : List String) (e : String)
    (herr : (process_model env existing0).2 = Except.error e) :
    (∀ f ∈ bodyRecorded env existing0, f ∉ (process_model env existing0).1) ∧
    (∀ f, env.isTemp f = true → f ∉ (process_model env existing0).1) := by
  simp only [process_model, bodyRecorded] at herr ⊢
  generalize hb : env.body (clean_temp_directory env.isTemp existing0) = b at herr ⊢
  rcases b with ⟨existingAtExit, recorded, outcome⟩
  cases outcome with
  | ok v =>
    exact Except.noConfusion
      (show (Except.ok v : Except String String) = Except.error e from herr)
  | error e' =>
    refine ⟨?_, ?_⟩
    · intro f hf hc
      have hf' : f ∈ recorded := hf
      have hmem : f ∈ removeRecordedFiles recorded existingAtExit :=
        List.mem_of_mem_filter hc
      exact not_mem_removeRecordedFiles recorded existingAtExit f hf' hmem
    · intro f hf
      exact not_mem_clean_of_temp env.isTemp
        (removeRecordedFiles recorded existingAtExit) f hf

/-- Concrete failing run: the body records `f1` as a temp file, leaves the
filesystem as it found it, and raises; `t1` lives in the temp directory. -/
def pmEnvFail : PMEnv :=
  { isTemp := fun s => s == "t1"
    body := fun existing => (existing ++ ["f1"], ["f1"], Except.error "boom") }

theorem C9_cleanup_on_error_witness :
    "f1" ∉ (process_model pmEnvFail ["f1", "t1", "keep"]).1 ∧
    "t1" ∉ (process_model pmEnvFail ["f1", "t1", "keep"]).1 :=
  ⟨(C9_cleanup_on_error pmEnvFail ["f1", "t1", "keep"] "boom" rfl).1 "f1" (by decide),
   (C9_cleanup_on_error pmEnvFail ["f1", "t1", "keep"] "boom" rfl).2 "t1" (by decide)⟩
